import Mathlib

/-!
Shallow embedding of the VedicMathEngine core (src/main.py) and proofs of the
specification claims about it.

Modelling conventions:
* Operands are integers (`ℤ`).  Python arbitrary-precision integer `+ - * // %`
  are exact, so they embed directly; Python `%` / `//` with positive divisor 10
  agree with Lean's `Int` `%` / `/` (both Euclidean here).
* Confidence / speedup constants (`0.95`, `3.2`, …) are embedded as exact
  rationals (`ℚ`).  Python float division `a / b` is idealized as exact
  rational division; the IEEE-754 rounding of Python floats is outside the
  embedding.  `float('inf')` is the explicit sentinel `PyNumber.inf`.
* Wall-clock timing (`execution_time_ms`), the random jitter of
  `_calculate_expected_speedup`, the non-integral power `(size/10) ** 2.5` of
  the matrix time estimate, and the Sanskrit-name lookup are not referenced by
  any claim and are left out of the records.
-/

namespace VedicMathEngine

/-- The five technique tags the classifier `_analyze_pattern` can return
(src/main.py lines 195-216); the spec calls them SquaringEndingInFive,
ComplementaryLastDigit, NearPowerOfTen, CrosswiseMultiDigit, Standard. -/
inductive Sutra where
  | ekadhikenaPurvena
  | antyayordasake
  | nikhilam
  | urdhvaTiryagbhyam
  | standard
  deriving DecidableEq, Repr

/-- A Python numeric value as produced by `_simulate_vedic_operation`:
an `int` result, a `float` result of true division (idealized as an exact
rational), or the `float('inf')` sentinel. -/
inductive PyNumber where
  | int (n : ℤ)
  | rat (q : ℚ)
  | inf
  deriving DecidableEq, Repr

/-- `len(str(abs(a_int)))` — the decimal digit count of `|a|`
(`numDigits 0 = 1`, matching `len(str(0))`). -/
def numDigits (a : ℤ) : ℕ := (Nat.toDigits 10 a.natAbs).length

/-- `base_a = 10 ** len(str(abs(a_int)))` from src/main.py line 204, as a
rational for the float comparisons that follow it. -/
def nikhilamBase (a : ℤ) : ℚ := (10 : ℚ) ^ numDigits a

/-- `proximity = 1.0 - (abs(a_int - base_a) + abs(b_int - base_a)) /
(2 * base_a * 0.2)` from src/main.py line 206. -/
def nikhilamProximity (a b : ℤ) : ℚ :=
  1 - (|(a : ℚ) - nikhilamBase a| + |(b : ℚ) - nikhilamBase a|) /
    (2 * nikhilamBase a * (2/10))

/-- The tuple `(sutra, confidence, predicted speedup, reasoning)` returned by
`_analyze_pattern`. -/
structure Classification where
  sutra : Sutra
  confidence : ℚ
  speedup : ℚ
  reasoning : String
  deriving DecidableEq, Repr

/-- `_analyze_pattern(a, b)` (src/main.py lines 191-216): the fixed-priority
if-cascade over the operand pair.  Operands are already integers here, so the
`int(a)` conversions are identities. -/
def analyzePattern (a b : ℤ) : Classification :=
  if a = b ∧ a % 10 = 5 ∧ 0 < a then
    ⟨Sutra.ekadhikenaPurvena, 95/100, 32/10,
      "Perfect squaring pattern: number ending in 5"⟩
  else if a % 10 + b % 10 = 10 ∧ a / 10 = b / 10 then
    ⟨Sutra.antyayordasake, 88/100, 24/10, "Same prefix, last digits sum to 10"⟩
  else if |(a : ℚ) - nikhilamBase a| < nikhilamBase a * (2/10) ∧
          |(b : ℚ) - nikhilamBase a| < nikhilamBase a * (2/10) then
    ⟨Sutra.nikhilam, nikhilamProximity a b * (85/100),
      18/10 + nikhilamProximity a b * (8/10),
      "Numbers close to same power of 10"⟩
  else if 3 ≤ max (numDigits a) (numDigits b) then
    ⟨Sutra.urdhvaTiryagbhyam,
      min (6/10 + ((max (numDigits a) (numDigits b) : ℚ) - 3) * (5/100)) (8/10),
      14/10 + ((max (numDigits a) (numDigits b) : ℚ) - 3) * (1/10),
      "Multi-digit crosswise multiplication"⟩
  else
    ⟨Sutra.standard, 1, 1, "No optimal Vedic pattern detected"⟩

/-- The fields of the dict built by `_simulate_vedic_operation`
(src/main.py lines 177-189) that the claims reference.  `correctness_verified`
is the literal `True` of line 186; `operation_id` copies the engine counter. -/
structure OperationRecord where
  result : PyNumber
  selected_algorithm : Sutra
  pattern_confidence : ℚ
  predicted_speedup : ℚ
  decision_reasoning : String
  correctness_verified : Bool
  operation_id : ℕ
  deriving DecidableEq, Repr

/-- `_simulate_vedic_operation(a, b, operation)` (src/main.py lines 152-189):
classify, compute the result by plain arithmetic per operation token
(`divide` guards `b != 0` and yields `float('inf')` otherwise; an
unrecognized token falls through to `result = a * b`), and assemble the
record with `correctness_verified` hard-coded `True`. -/
def simulateVedicOperation (a b : ℤ) (operation : String) (counter : ℕ) :
    OperationRecord :=
  let c := analyzePattern a b
  let result : PyNumber :=
    if operation = "multiply" then PyNumber.int (a * b)
    else if operation = "divide" then
      (if b ≠ 0 then PyNumber.rat ((a : ℚ) / (b : ℚ)) else PyNumber.inf)
    else if operation = "add" then PyNumber.int (a + b)
    else if operation = "subtract" then PyNumber.int (a - b)
    else PyNumber.int (a * b)
  { result := result
    selected_algorithm := c.sutra
    pattern_confidence := c.confidence
    predicted_speedup := c.speedup
    decision_reasoning := c.reasoning
    correctness_verified := true
    operation_id := counter }

/-- The `/api/v1/calculate` endpoint body (src/main.py lines 336-345): it
increments `vedic_engine.operation_counter` and then runs
`_simulate_vedic_operation`, whose record captures the incremented counter.
Returns the record together with the new counter state. -/
def calculate (a b : ℤ) (operation : String) (counter : ℕ) :
    OperationRecord × ℕ :=
  let counter1 := counter + 1
  (simulateVedicOperation a b operation counter1, counter1)

/-- One benchmark-loop call `vedic_engine._simulate_vedic_operation(a, b,
"multiply")` from `run_benchmark` (src/main.py line 415): it does NOT touch
`operation_counter`, so the counter state is returned unchanged. -/
def benchmarkExecute (a b : ℤ) (counter : ℕ) : OperationRecord × ℕ :=
  (simulateVedicOperation a b "multiply" counter, counter)

/-- Modelled from the spec: the mathematically exact value of the operation on
`(a, b)` — the plain `+ - × /` recomputation the spec's CorrectnessVerifier
performs — with `none` where the operation is undefined (unknown token, or
division by zero).  Division is exact rational division. -/
def specExactValue (a b : ℤ) (operation : String) : Option PyNumber :=
  if operation = "multiply" then some (PyNumber.int (a * b))
  else if operation = "divide" then
    (if b = 0 then none else some (PyNumber.rat ((a : ℚ) / (b : ℚ))))
  else if operation = "add" then some (PyNumber.int (a + b))
  else if operation = "subtract" then some (PyNumber.int (a - b))
  else none

/-- The fields of `MatrixResponse` (src/main.py lines 71-79) referenced by the
claims.  `execution_time_ms` and `operations_per_second` involve the float
power `(size/10) ** 2.5` and are not referenced by any claim. -/
structure MatrixResponse where
  size : ℤ
  method_used : String
  vedic_operations_used : ℤ
  speedup_factor : ℚ
  correctness_verified : Bool
  performance_notes : String
  deriving DecidableEq, Repr

/-- `simulate_matrix_operation(size, use_vedic)` (src/main.py lines 266-308):
the vedic path uses the four size brackets for the invocation count and the
fixed `speedup = 0.002`; the standard path uses `speedup = 1.0`.  Both paths
hard-code `correctness_verified=True` (line 306). -/
def simulate_matrix_operation (size : ℤ) (use_vedic : Bool) : MatrixResponse :=
  if use_vedic then
    let vedic_ops : ℤ :=
      if size ≤ 25 then size ^ 2
      else if size ≤ 50 then size ^ 2 * 15
      else if size ≤ 100 then size ^ 2 * 200
      else size ^ 2 * 1980
    { size := size
      method_used := "Vedic Enhanced"
      vedic_operations_used := vedic_ops
      speedup_factor := 2/1000
      correctness_verified := true
      performance_notes := "Standard methods faster (overhead dominates)" }
  else
    { size := size
      method_used := "Standard"
      vedic_operations_used := 0
      speedup_factor := 1
      correctness_verified := true
      performance_notes := "Optimized standard matrix multiplication" }

/-- The typed failure of the matrix endpoint: the pydantic bound
`size: int = Field(ge=2, le=200)` of `MatrixRequest` (src/main.py lines 66-69)
rejects out-of-range sizes before the handler runs (the handler's own
`size > 200` check at line 366 is shadowed by it). -/
inductive MatrixError where
  | invalidSize
  deriving DecidableEq, Repr

/-- The `/api/v1/matrix` request path (src/main.py lines 66-69 and 362-373):
validate `2 ≤ size ≤ 200`, then run `simulate_matrix_operation`. -/
def matrix_multiply (size : ℤ) (use_vedic : Bool) :
    Except MatrixError MatrixResponse :=
  if size < 2 ∨ 200 < size then Except.error MatrixError.invalidSize
  else Except.ok (simulate_matrix_operation size use_vedic)

theorem nikhilamBase_pos (a : ℤ) : 0 < nikhilamBase a := by
  unfold nikhilamBase
  positivity

theorem nikhilamProximity_le_one (a b : ℤ) : nikhilamProximity a b ≤ 1 := by
  have hb := nikhilamBase_pos a
  have hnum : 0 ≤ |(a : ℚ) - nikhilamBase a| + |(b : ℚ) - nikhilamBase a| := by
    positivity
  have hden : (0 : ℚ) < 2 * nikhilamBase a * (2/10) := by positivity
  have := div_nonneg hnum hden.le
  unfold nikhilamProximity
  linarith

theorem nikhilamProximity_pos (a b : ℤ)
    (h3 : |(a : ℚ) - nikhilamBase a| < nikhilamBase a * (2/10))
    (h4 : |(b : ℚ) - nikhilamBase a| < nikhilamBase a * (2/10)) :
    0 < nikhilamProximity a b := by
  have hden : (0 : ℚ) < 2 * nikhilamBase a * (2/10) := by
    have := nikhilamBase_pos a
    positivity
  have hlt : (|(a : ℚ) - nikhilamBase a| + |(b : ℚ) - nikhilamBase a|) /
      (2 * nikhilamBase a * (2/10)) < 1 := by
    rw [div_lt_one hden]
    linarith
  unfold nikhilamProximity
  linarith

/-- C1: for in-range inputs (one of the four operation tokens, divisor nonzero
for divide), the record's result equals the mathematically exact value of the
operation, the verified flag equals the boolean comparison of the result with
the plain-arithmetic recomputation, and hence the flag is true.  (Division is
idealized as exact rational division; Python's float rounding of `a / b` is
outside the embedding.) -/
theorem C1_execute_result_exact_and_verified (a b : ℤ) (op : String) (c : ℕ)
    (hop : op = "add" ∨ op = "subtract" ∨ op = "multiply" ∨ op = "divide")
    (hdiv : op = "divide" → b ≠ 0) :
    some (simulateVedicOperation a b op c).result = specExactValue a b op ∧
    (simulateVedicOperation a b op c).correctness_verified =
      decide (some (simulateVedicOperation a b op c).result =
        specExactValue a b op) ∧
    (simulateVedicOperation a b op c).correctness_verified = true := by
  have hres : some (simulateVedicOperation a b op c).result =
      specExactValue a b op := by
    rcases hop with h | h | h | h <;> subst h
    · rfl
    · rfl
    · rfl
    · have hb : b ≠ 0 := hdiv rfl
      simp only [simulateVedicOperation, specExactValue, hb, if_neg,
        if_true, reduceIte]
      simp [hb]
  refine ⟨hres, ?_, rfl⟩
  rw [decide_eq_true hres]
  rfl

/-- C1 witness at execute(6, 7, multiply). -/
theorem C1_execute_result_exact_and_verified_witness :
    some (simulateVedicOperation 6 7 "multiply" 0).result =
      specExactValue 6 7 "multiply" ∧
    (simulateVedicOperation 6 7 "multiply" 0).correctness_verified =
      decide (some (simulateVedicOperation 6 7 "multiply" 0).result =
        specExactValue 6 7 "multiply") ∧
    (simulateVedicOperation 6 7 "multiply" 0).correctness_verified = true :=
  C1_execute_result_exact_and_verified 6 7 "multiply" 0
    (Or.inr (Or.inr (Or.inl rfl))) (fun h => absurd h (by decide))

/-- C2 counterexample: execute(10, 0, divide) does not fail with a typed
DivisionByZero error — the code has no such error and returns a normal record
whose result is the float('inf') sentinel even though both operands are
integers, with the record marked verified. -/
theorem C2_divide_by_zero_counterexample :
    (simulateVedicOperation 10 0 "divide" 0).result = PyNumber.inf ∧
    (simulateVedicOperation 10 0 "divide" 0).correctness_verified = true :=
  ⟨rfl, rfl⟩

/-- C2 amended: for every operand, execute(a, 0, divide) succeeds and returns
a record whose result is the infinity sentinel; no DivisionByZero failure path
exists, for integer operands as well as floating ones. -/
theorem C2_divide_by_zero_amended (a : ℤ) (c : ℕ) :
    (simulateVedicOperation a 0 "divide" c).result = PyNumber.inf := rfl

/-- C3 counterexample: execute(3, 4, "power") does not fail with
UnsupportedOperation — it silently returns a record whose result is 3 * 4. -/
theorem C3_unknown_operation_counterexample :
    (simulateVedicOperation 3 4 "power" 0).result = PyNumber.int 12 := rfl

/-- C3 amended: for every operation token outside {add, subtract, multiply,
divide}, execute succeeds and silently returns the multiplication a * b; no
UnsupportedOperation failure path exists. -/
theorem C3_unknown_operation_amended (a b : ℤ) (op : String) (c : ℕ)
    (h1 : op ≠ "multiply") (h2 : op ≠ "divide") (h3 : op ≠ "add")
    (h4 : op ≠ "subtract") :
    (simulateVedicOperation a b op c).result = PyNumber.int (a * b) := by
  simp [simulateVedicOperation, h1, h2, h3, h4]

/-- C3 witness at the unrecognized token "power". -/
theorem C3_unknown_operation_witness :
    (simulateVedicOperation 2 5 "power" 1).result = PyNumber.int 10 :=
  C3_unknown_operation_amended 2 5 "power" 1 (by decide) (by decide)
    (by decide) (by decide)

/-- C6 counterexample: the benchmark harness calls
`_simulate_vedic_operation` directly without touching the operation counter,
so two successive benchmark executions leave the counter unchanged and
produce records with equal (not strictly increasing) operation ids. -/
theorem C6_counter_counterexample :
    (benchmarkExecute 3 4 7).2 = 7 ∧
    (benchmarkExecute 5 6 (benchmarkExecute 3 4 7).2).1.operation_id =
      (benchmarkExecute 3 4 7).1.operation_id :=
  ⟨rfl, rfl⟩

/-- C6 amended: the `/api/v1/calculate` endpoint increments the counter
exactly once per call, before the record is returned, and its successive
records carry strictly increasing operation ids; but the execute calls made on
behalf of the benchmark harness bypass the increment and reuse the current
counter value as their operation id. -/
theorem C6_counter_amended (a b a2 b2 : ℤ) (op op2 : String) (c : ℕ) :
    (calculate a b op c).2 = c + 1 ∧
    (calculate a b op c).1.operation_id = c + 1 ∧
    (calculate a2 b2 op2 (calculate a b op c).2).1.operation_id =
      (calculate a b op c).1.operation_id + 1 ∧
    (benchmarkExecute a b c).2 = c ∧
    (benchmarkExecute a b c).1.operation_id = c :=
  ⟨rfl, rfl, rfl, rfl, rfl⟩

/-- C4: for every integer n > 0 ending in 5, classify(n, n) yields
SquaringEndingInFive (Ekadhikena Purvena) with confidence exactly 0.95 and
predicted speedup 3.2.  The result is a pure function of (n, n), hence
identical on every repeated call, and rule 1 is the first branch of the
cascade, so it wins even when a later rule's condition also holds. -/
theorem C4_squaring_ending_in_five (n : ℤ) (h1 : 0 < n) (h2 : n % 10 = 5) :
    analyzePattern n n =
      ⟨Sutra.ekadhikenaPurvena, 95/100, 32/10,
        "Perfect squaring pattern: number ending in 5"⟩ := by
  unfold analyzePattern
  rw [if_pos ⟨rfl, h2, h1⟩]

/-- C4 witness: n = 105 also satisfies rule 4's condition (3 digits), yet
rule 1 wins. -/
theorem C4_squaring_ending_in_five_witness :
    analyzePattern 105 105 =
      ⟨Sutra.ekadhikenaPurvena, 95/100, 32/10,
        "Perfect squaring pattern: number ending in 5"⟩ :=
  C4_squaring_ending_in_five 105 (by decide) (by decide)

theorem numDigits_98 : numDigits 98 = 2 := rfl

theorem nikhilamBase_98 : nikhilamBase 98 = 100 := by
  rw [nikhilamBase, numDigits_98]
  norm_num

theorem nikhilam_cond_98 :
    |(98 : ℚ) - nikhilamBase 98| < nikhilamBase 98 * (2/10) := by
  rw [nikhilamBase_98]
  rw [abs_sub_lt_iff]
  norm_num

theorem nikhilam_cond_97 :
    |(97 : ℚ) - nikhilamBase 98| < nikhilamBase 98 * (2/10) := by
  rw [nikhilamBase_98]
  rw [abs_sub_lt_iff]
  norm_num

/-- C5: whenever rules 1 and 2 do not match and both operands are within 20%
of the base (the power of ten `10 ^ len(str(abs(a)))` the code derives from
a's digit count), classify returns NearPowerOfTen (Nikhilam) with confidence
0.85 × (1 − (|a−base|+|b−base|)/(2×0.2×base)), which already lies in [0, 1]
(so clamping is the identity); in particular execute(98, 97, multiply)
returns result 9506 with technique NearPowerOfTen. -/
theorem C5_near_power_of_ten (a b : ℤ)
    (h1 : ¬(a = b ∧ a % 10 = 5 ∧ 0 < a))
    (h2 : ¬(a % 10 + b % 10 = 10 ∧ a / 10 = b / 10))
    (h3 : |(a : ℚ) - nikhilamBase a| < nikhilamBase a * (2/10))
    (h4 : |(b : ℚ) - nikhilamBase a| < nikhilamBase a * (2/10)) :
    (analyzePattern a b).sutra = Sutra.nikhilam ∧
    (analyzePattern a b).confidence =
      (85/100) *
        (1 - (|(a : ℚ) - nikhilamBase a| + |(b : ℚ) - nikhilamBase a|) /
          (2 * (2/10) * nikhilamBase a)) ∧
    0 ≤ (analyzePattern a b).confidence ∧
    (analyzePattern a b).confidence ≤ 1 ∧
    (simulateVedicOperation 98 97 "multiply" 0).result = PyNumber.int 9506 ∧
    (simulateVedicOperation 98 97 "multiply" 0).selected_algorithm =
      Sutra.nikhilam := by
  have hAP : analyzePattern a b =
      ⟨Sutra.nikhilam, nikhilamProximity a b * (85/100),
        18/10 + nikhilamProximity a b * (8/10),
        "Numbers close to same power of 10"⟩ := by
    unfold analyzePattern
    rw [if_neg h1, if_neg h2, if_pos ⟨h3, h4⟩]
  have hp := nikhilamProximity_pos a b h3 h4
  have hl := nikhilamProximity_le_one a b
  rw [hAP]
  refine ⟨rfl, ?_, ?_, ?_, rfl, ?_⟩
  · show nikhilamProximity a b * (85/100) = _
    unfold nikhilamProximity
    ring
  · show (0 : ℚ) ≤ nikhilamProximity a b * (85/100)
    nlinarith
  · show nikhilamProximity a b * (85/100) ≤ 1
    nlinarith
  · show (analyzePattern 98 97).sutra = Sutra.nikhilam
    unfold analyzePattern
    rw [if_neg (by decide), if_neg (by decide),
      if_pos ⟨nikhilam_cond_98, nikhilam_cond_97⟩]

/-- C5 witness at the pair (98, 97). -/
theorem C5_near_power_of_ten_witness :
    (analyzePattern 98 97).sutra = Sutra.nikhilam ∧
    (analyzePattern 98 97).confidence =
      (85/100) *
        (1 - (|(98 : ℚ) - nikhilamBase 98| + |(97 : ℚ) - nikhilamBase 98|) /
          (2 * (2/10) * nikhilamBase 98)) ∧
    0 ≤ (analyzePattern 98 97).confidence ∧
    (analyzePattern 98 97).confidence ≤ 1 ∧
    (simulateVedicOperation 98 97 "multiply" 0).result = PyNumber.int 9506 ∧
    (simulateVedicOperation 98 97 "multiply" 0).selected_algorithm =
      Sutra.nikhilam :=
  C5_near_power_of_ten 98 97 (by decide) (by decide) nikhilam_cond_98
    nikhilam_cond_97

/-- C9: classification is a total function (the Lean embedding of the cascade
ends in the unconditional Standard branch, so no input can fail), and every
result has confidence in [0, 1] and non-negative predicted speedup. -/
theorem C9_classify_total_and_bounded (a b : ℤ) :
    0 ≤ (analyzePattern a b).confidence ∧
    (analyzePattern a b).confidence ≤ 1 ∧
    0 ≤ (analyzePattern a b).speedup := by
  unfold analyzePattern
  split
  · exact ⟨by norm_num, by norm_num, by norm_num⟩
  split
  · exact ⟨by norm_num, by norm_num, by norm_num⟩
  split
  · rename_i h34
    obtain ⟨h3, h4⟩ := h34
    have hp := nikhilamProximity_pos a b h3 h4
    have hl := nikhilamProximity_le_one a b
    refine ⟨?_, ?_, ?_⟩ <;> dsimp only <;> nlinarith
  split
  · rename_i hd
    have h3 : (3 : ℚ) ≤ (max (numDigits a) (numDigits b) : ℚ) := by
      exact_mod_cast hd
    refine ⟨?_, ?_, ?_⟩ <;> dsimp only
    · exact le_min (by linarith) (by norm_num)
    · exact le_trans (min_le_right _ _) (by norm_num)
    · linarith
  · exact ⟨by norm_num, by norm_num, by norm_num⟩

/-- C7: for every valid size, the vedic matrix estimate reports the fixed
speedup factor 0.002 < 1 and the standard estimate reports exactly 1.0. -/
theorem C7_matrix_speedup_constants (size : ℤ) (h1 : 2 ≤ size)
    (h2 : size ≤ 200) :
    matrix_multiply size true =
      Except.ok (simulate_matrix_operation size true) ∧
    (simulate_matrix_operation size true).speedup_factor = 2/1000 ∧
    (2/1000 : ℚ) < 1 ∧
    matrix_multiply size false =
      Except.ok (simulate_matrix_operation size false) ∧
    (simulate_matrix_operation size false).speedup_factor = 1 := by
  have hr : ¬(size < 2 ∨ 200 < size) := by omega
  refine ⟨?_, ?_, by norm_num, ?_, ?_⟩
  · simp [matrix_multiply, hr]
  · rfl
  · simp [matrix_multiply, hr]
  · rfl

/-- C7 witness at size = 50. -/
theorem C7_matrix_speedup_constants_witness :
    matrix_multiply 50 true = Except.ok (simulate_matrix_operation 50 true) ∧
    (simulate_matrix_operation 50 true).speedup_factor = 2/1000 ∧
    (2/1000 : ℚ) < 1 ∧
    matrix_multiply 50 false =
      Except.ok (simulate_matrix_operation 50 false) ∧
    (simulate_matrix_operation 50 false).speedup_factor = 1 :=
  C7_matrix_speedup_constants 50 (by decide) (by decide)

/-- C8: every size outside [2, 200] is rejected with the typed InvalidSize
failure, for either strategy choice. -/
theorem C8_matrix_invalid_size (size : ℤ) (h : size < 2 ∨ 200 < size) :
    matrix_multiply size true = Except.error MatrixError.invalidSize ∧
    matrix_multiply size false = Except.error MatrixError.invalidSize := by
  constructor <;> simp [matrix_multiply, h]

/-- C8 witness: sizes 1 and 201 both fail with InvalidSize. -/
theorem C8_matrix_invalid_size_witness :
    matrix_multiply 1 true = Except.error MatrixError.invalidSize ∧
    matrix_multiply 201 true = Except.error MatrixError.invalidSize :=
  ⟨(C8_matrix_invalid_size 1 (Or.inl (by decide))).1,
   (C8_matrix_invalid_size 201 (Or.inr (by decide))).1⟩

/-- C10: `correctness_verified` is the literal constant True — for every
operand pair, every operation token (recognized or not, so in particular for
division by zero), and for every valid matrix size under either strategy.  It
does not depend on any comparison of the result with the exact value. -/
theorem C10_verified_flag_constant (a b : ℤ) (op : String) (c : ℕ)
    (size : ℤ) (uv : Bool) (h1 : 2 ≤ size) (h2 : size ≤ 200) :
    (simulateVedicOperation a b op c).correctness_verified = true ∧
    (simulate_matrix_operation size uv).correctness_verified = true := by
  constructor
  · rfl
  · cases uv <;> simp [simulate_matrix_operation]

/-- C10 witness: division by zero on the scalar path and size 10 on the vedic
matrix path both report the flag as True. -/
theorem C10_verified_flag_constant_witness :
    (simulateVedicOperation 10 0 "divide" 0).correctness_verified = true ∧
    (simulate_matrix_operation 10 true).correctness_verified = true :=
  C10_verified_flag_constant 10 0 "divide" 0 10 true (by decide) (by decide)

end VedicMathEngine
